import Mathlib

/-
Verification of the Adyen payment gateway core (adyen/gateway.py):
field validation, signing-string construction, and the inbound
notification / redirect interpretation paths.

Field sets are Python dicts from field names to values; a value is either
a string or the Python None object.  Dicts are modelled as insertion-ordered
association lists (first occurrence of a key wins on lookup, as a Python dict
can never hold a duplicate key).
-/

namespace AdyenGateway

/-- A Python field value: the None object, or a string. -/
inductive Val where
  | none : Val
  | str (s : String) : Val
deriving DecidableEq, Repr

/-- A field set: insertion-ordered mapping from field name to value. -/
abbrev FieldSet := List (String × Val)

/-- First-occurrence lookup in a field set, as a Python dict lookup. -/
def lookupField : FieldSet → String → Option Val
  | [], _ => Option.none
  | (k, v) :: rest, f => if k = f then Option.some v else lookupField rest f

/-- Python `params.get(key)`: returns the value, or None when absent. -/
def pyGet (params : FieldSet) (k : String) : Val :=
  (lookupField params k).getD Val.none

/-- Python `params.get(key, default)`. -/
def pyGetD (params : FieldSet) (k : String) (d : Val) : Val :=
  (lookupField params k).getD d

/-- Python truthiness of a field value: None and the empty string are falsy. -/
def truthy : Val → Bool
  | Val.none => false
  | Val.str s => !s.isEmpty

/-- Python `str(value)`: the string itself, or the literal rendering of None. -/
def valStr : Val → String
  | Val.none => "None"
  | Val.str s => s

/-- Python `value == someString`: true only for an equal string value
(None never equals a string). -/
def valEqStr (v : Val) (s : String) : Bool :=
  match v with
  | Val.none => false
  | Val.str t => t = s

/-- Does the character list start with the given segment? -/
def startsWithSeg : List Char → List Char → Bool
  | [], _ => true
  | _ :: _, [] => false
  | p :: ps, c :: cs => p = c && startsWithSeg ps cs

/-- Does the character list contain the given segment anywhere? -/
def hasSeg (pat : List Char) : List Char → Bool
  | [] => pat.isEmpty
  | c :: tail => startsWithSeg pat (c :: tail) || hasSeg pat tail

/-- Python `pat in s` on strings: substring containment. -/
def strContains (s pat : String) : Bool :=
  hasSeg pat.data s.data

/-- Modelled from the spec: the field-name constants of the constants module,
which is not part of the provided source.  The wire names of the signing-order
fields are pinned by the canonical signing orders of the spec; the remaining names
follow the same wire-naming convention.  The claims depend only on these being
fixed, distinct strings. -/
def Constants.IDENTIFIER : String := "identifier"

def Constants.SECRET_KEY : String := "secret_key"

def Constants.ACTION_URL : String := "action_url"

def Constants.SIGNER : String := "signer"

def Constants.MERCHANT_ACCOUNT : String := "merchantAccount"

def Constants.MERCHANT_REFERENCE : String := "merchantReference"

def Constants.SHOPPER_REFERENCE : String := "shopperReference"

def Constants.SHOPPER_EMAIL : String := "shopperEmail"

def Constants.CURRENCY_CODE : String := "currencyCode"

def Constants.PAYMENT_AMOUNT : String := "paymentAmount"

def Constants.SESSION_VALIDITY : String := "sessionValidity"

def Constants.SHIP_BEFORE_DATE : String := "shipBeforeDate"

def Constants.MERCHANT_SIG : String := "merchantSig"

def Constants.SKIN_CODE : String := "skinCode"

def Constants.AUTH_RESULT : String := "authResult"

def Constants.PSP_REFERENCE : String := "pspReference"

def Constants.PAYMENT_METHOD : String := "paymentMethod"

def Constants.SHOPPER_LOCALE : String := "shopperLocale"

def Constants.MERCHANT_RETURN_DATA : String := "merchantReturnData"

def Constants.CURRENCY : String := "currency"

def Constants.EVENT_CODE : String := "eventCode"

def Constants.EVENT_DATE : String := "eventDate"

def Constants.LIVE : String := "live"

def Constants.MERCHANT_ACCOUNT_CODE : String := "merchantAccountCode"

def Constants.REASON : String := "reason"

def Constants.SUCCESS : String := "success"

def Constants.VALUE : String := "value"

def Constants.OPERATIONS : String := "operations"

def Constants.ORIGINAL_REFERENCE : String := "originalReference"

/-- Modelled from the spec: the reserved additional-data marker whose presence
in a notification field name makes the field ignorable
(the gateway source describes the format as additionalData.VALUE). -/
def Constants.ADDITIONAL_DATA_MARK : String := "additionalData"

def Constants.TRUE : String := "true"

def Constants.PAYMENT_RESULT_AUTHORISED : String := "AUTHORISED"

def Constants.PAYMENT_RESULT_REFUSED : String := "REFUSED"

/-- Errors raised by the gateway (the exception classes of the missing
exceptions module, carrying the datum each message interpolates); KeyError
models the built-in dict-indexing failure of Python. -/
inductive AdyenError where
  | MissingParameterException (message : String) : AdyenError
  | MissingFieldException (fieldName : String) : AdyenError
  | UnexpectedFieldException (fieldName : String) : AdyenError
  | InvalidTransactionException : AdyenError
  | KeyError (key : String) : AdyenError
deriving DecidableEq, Repr

/-- First loop of BaseInteraction.check_fields: iterate the required list in
declared order, raising MissingFieldException on the first absent-or-falsy
field. -/
def checkRequired (params : FieldSet) : List String → Except AdyenError Unit
  | [] => Except.ok ()
  | f :: rest =>
    if truthy (pyGet params f) then checkRequired params rest
    else Except.error (AdyenError.MissingFieldException f)

/-- Second loop of BaseInteraction.check_fields: iterate, in the own
key order, raising UnexpectedFieldException on the first key outside the
expected list. -/
def checkUnexpected (expected : List String) : List String → Except AdyenError Unit
  | [] => Except.ok ()
  | k :: rest =>
    if k ∈ expected then checkUnexpected expected rest
    else Except.error (AdyenError.UnexpectedFieldException k)

/-- BaseInteraction.check_fields: the required-field loop runs first; only
when it completes does the unexpected-field loop run over the keys of the field set
 against required ++ optional. -/
def check_fields (required optional : List String) (params : FieldSet) :
    Except AdyenError Unit :=
  match checkRequired params required with
  | Except.error e => Except.error e
  | Except.ok _ => checkUnexpected (required ++ optional) (params.map Prod.fst)

/-- Gateway.MANDATORY_SETTINGS. -/
def MANDATORY_SETTINGS : List String :=
  [Constants.IDENTIFIER, Constants.SECRET_KEY, Constants.ACTION_URL,
   Constants.SIGNER]

/-- The configured gateway produced by Gateway.__init__. -/
structure Gateway where
  identifier : Val
  secret_key : Val
  action_url : Val
  signer : Val
deriving DecidableEq, Repr

/-- The message of the MissingParameterException raised by Gateway.__init__. -/
def missingParameterMessage : String :=
  "You need to specify the following parameters to initialize " ++
  "the Adyen gateway: " ++ String.intercalate ", " MANDATORY_SETTINGS ++ ". " ++
  "Please check your configuration."

/-- Gateway.__init__: fails when any mandatory key is absent from the settings
mapping (a key-presence check only); otherwise reads the four settings with
`get`, which yields None for a key bound to None. -/
def gateway_init (settings : FieldSet) : Except AdyenError Gateway :=
  if MANDATORY_SETTINGS.any (fun key => (lookupField settings key).isNone) then
    Except.error (AdyenError.MissingParameterException missingParameterMessage)
  else
    Except.ok
      { identifier := pyGet settings Constants.IDENTIFIER
        secret_key := pyGet settings Constants.SECRET_KEY
        action_url := pyGet settings Constants.ACTION_URL
        signer := pyGet settings Constants.SIGNER }

/-- The signing string of Gateway._compute_hash: the values of the given keys
in order, each read by get with an empty-string default and passed through str,
concatenated. -/
def signing_string (keys : List String) (params : FieldSet) : String :=
  String.join (keys.map (fun k => valStr (pyGetD params k (Val.str ""))))

/-- Gateway._compute_hash, with the external HMAC-SHA1-then-base64 pipeline of
the Python standard library abstracted as a function of the secret key and the
signing string. -/
def compute_hash (hm : String → String → String) (secret_key : String)
    (keys : List String) (params : FieldSet) : String :=
  hm secret_key (signing_string keys params)

/-- Follows the words of the spec, for comparison with signing_string: the
concatenation of the field values in the given fixed order, with the empty
string substituted for every key absent from the field set. -/
def signing_string_spec : List String → FieldSet → String
  | [], _ => ""
  | k :: ks, params =>
    (match lookupField params k with
     | Option.some v => valStr v
     | Option.none => "") ++ signing_string_spec ks params

/-- The outbound payment-setup signing order, as fixed by the
Gateway._compute_hash documentation. -/
def PAYMENT_SETUP_SIGNING_ORDER : List String :=
  [Constants.PAYMENT_AMOUNT, Constants.CURRENCY_CODE,
   Constants.SHIP_BEFORE_DATE, Constants.MERCHANT_REFERENCE,
   Constants.SKIN_CODE, Constants.MERCHANT_ACCOUNT,
   Constants.SESSION_VALIDITY, Constants.SHOPPER_EMAIL,
   Constants.SHOPPER_REFERENCE, "recurringContract", "allowedMethods",
   "blockedMethods", "shopperStatement", Constants.MERCHANT_RETURN_DATA,
   "billingAddressType", "deliveryAddressType", "shopperType", "offset"]

/-- The inbound payment-result signing order, as fixed by the
Gateway._compute_hash documentation. -/
def PAYMENT_RESULT_SIGNING_ORDER : List String :=
  [Constants.AUTH_RESULT, Constants.PSP_REFERENCE,
   Constants.MERCHANT_REFERENCE, Constants.SKIN_CODE,
   Constants.MERCHANT_RETURN_DATA]

/-- PaymentNotification.REQUIRED_FIELDS. -/
def PaymentNotification.REQUIRED_FIELDS : List String :=
  [Constants.CURRENCY, Constants.EVENT_CODE, Constants.EVENT_DATE,
   Constants.LIVE, Constants.MERCHANT_ACCOUNT_CODE,
   Constants.MERCHANT_REFERENCE, Constants.PAYMENT_METHOD,
   Constants.PSP_REFERENCE, Constants.REASON, Constants.SUCCESS,
   Constants.VALUE]

/-- PaymentNotification.OPTIONAL_FIELDS. -/
def PaymentNotification.OPTIONAL_FIELDS : List String :=
  [Constants.OPERATIONS, Constants.ORIGINAL_REFERENCE]

/-- The dict comprehension of PaymentNotification.check_fields: keep only the
fields whose name does not contain the additional-data marker, preserving
order. -/
def PaymentNotification.filterAdditional (params : FieldSet) : FieldSet :=
  params.filter (fun kv => !(strContains kv.fst Constants.ADDITIONAL_DATA_MARK))

/-- PaymentNotification.check_fields: drop the additional-data fields, then
run the shared check on the filtered field set. -/
def PaymentNotification.check_fields (params : FieldSet) :
    Except AdyenError Unit :=
  AdyenGateway.check_fields PaymentNotification.REQUIRED_FIELDS
    PaymentNotification.OPTIONAL_FIELDS
    (PaymentNotification.filterAdditional params)

/-- PaymentNotification.process on the (already filtered) field set held by
the instance: accepted compares the success value to the truth token, the
status is the re-derived AUTHORISED/REFUSED token, and the full field set is
returned. -/
def PaymentNotification.process (params : FieldSet) : Bool × Val × FieldSet :=
  let payment_result := pyGet params Constants.SUCCESS
  let accepted := valEqStr payment_result Constants.TRUE
  (accepted,
   Val.str (if accepted then Constants.PAYMENT_RESULT_AUTHORISED
            else Constants.PAYMENT_RESULT_REFUSED),
   params)

/-- The notification path end to end: filter, validate, then process; an
outcome is produced only when validation succeeds. -/
def PaymentNotification.handle (params : FieldSet) :
    Except AdyenError (Bool × Val × FieldSet) :=
  let filtered := PaymentNotification.filterAdditional params
  match AdyenGateway.check_fields PaymentNotification.REQUIRED_FIELDS
      PaymentNotification.OPTIONAL_FIELDS filtered with
  | Except.error e => Except.error e
  | Except.ok _ => Except.ok (PaymentNotification.process filtered)

/-- PaymentRedirection.REQUIRED_FIELDS. -/
def PaymentRedirection.REQUIRED_FIELDS : List String :=
  [Constants.AUTH_RESULT, Constants.MERCHANT_REFERENCE,
   Constants.MERCHANT_SIG, Constants.SHOPPER_LOCALE, Constants.SKIN_CODE]

/-- PaymentRedirection.OPTIONAL_FIELDS. -/
def PaymentRedirection.OPTIONAL_FIELDS : List String :=
  [Constants.MERCHANT_RETURN_DATA, Constants.PAYMENT_METHOD,
   Constants.PSP_REFERENCE]

/-- PaymentRedirection.validate: the shared structural check first; only on
its success is the verify operation of the pluggable signer consulted, a false answer raising
InvalidTransactionException. -/
def PaymentRedirection.validate (verify : FieldSet → Bool)
    (params : FieldSet) : Except AdyenError Unit :=
  match AdyenGateway.check_fields PaymentRedirection.REQUIRED_FIELDS
      PaymentRedirection.OPTIONAL_FIELDS params with
  | Except.error e => Except.error e
  | Except.ok _ =>
    if verify params then Except.ok ()
    else Except.error AdyenError.InvalidTransactionException

/-- PaymentRedirection.process: indexes the auth-result field (a KeyError when
absent, modelled as Option.none), compares it to the AUTHORISED token, and
returns it raw as the status together with the full field set. -/
def PaymentRedirection.process (params : FieldSet) :
    Option (Bool × Val × FieldSet) :=
  match lookupField params Constants.AUTH_RESULT with
  | Option.none => Option.none
  | Option.some v =>
    Option.some (valEqStr v Constants.PAYMENT_RESULT_AUTHORISED, v, params)

/-- The redirect path end to end: validate (structural check plus signature
verification), then process; an outcome is produced only when validation
succeeds. -/
def PaymentRedirection.handle (verify : FieldSet → Bool) (params : FieldSet) :
    Except AdyenError (Bool × Val × FieldSet) :=
  match PaymentRedirection.validate verify params with
  | Except.error e => Except.error e
  | Except.ok _ =>
    match PaymentRedirection.process params with
    | Option.some out => Except.ok out
    | Option.none => Except.error (AdyenError.KeyError Constants.AUTH_RESULT)

/-- A concrete inbound notification field set: the eleven required fields,
plus an additional-data field that the pre-filter must drop. -/
def notifSample : FieldSet :=
  [(Constants.CURRENCY, Val.str "EUR"),
   (Constants.EVENT_CODE, Val.str "AUTHORISATION"),
   (Constants.EVENT_DATE, Val.str "2015-01-01T00:00:00"),
   (Constants.LIVE, Val.str "false"),
   (Constants.MERCHANT_ACCOUNT_CODE, Val.str "AcmeAccount"),
   (Constants.MERCHANT_REFERENCE, Val.str "REF-1"),
   (Constants.PAYMENT_METHOD, Val.str "visa"),
   (Constants.PSP_REFERENCE, Val.str "8888777766665555"),
   (Constants.REASON, Val.str "ok"),
   (Constants.SUCCESS, Val.str "true"),
   (Constants.VALUE, Val.str "100"),
   ("additionalData.cardSummary", Val.str "1111")]

/-- A concrete inbound redirect field set: the five required fields. -/
def redirSample : FieldSet :=
  [(Constants.AUTH_RESULT, Val.str "AUTHORISED"),
   (Constants.MERCHANT_REFERENCE, Val.str "REF-1"),
   (Constants.MERCHANT_SIG, Val.str "c2lnbmF0dXJl"),
   (Constants.SHOPPER_LOCALE, Val.str "en_GB"),
   (Constants.SKIN_CODE, Val.str "4aD37dJA")]

/-- A concrete settings mapping holding all four mandatory keys with falsy
values (empty strings and None). -/
def settingsSample : FieldSet :=
  [(Constants.IDENTIFIER, Val.str ""),
   (Constants.SECRET_KEY, Val.none),
   (Constants.ACTION_URL, Val.str ""),
   (Constants.SIGNER, Val.str "")]

theorem join_cons (s : String) (l : List String) :
    String.join (s :: l) = s ++ String.join l := by
  simp [String.join_eq]
  rfl

theorem lookupField_append (p q : FieldSet) (f : String) :
    lookupField (p ++ q) f =
      match lookupField p f with
      | Option.some v => Option.some v
      | Option.none => lookupField q f := by
  induction p with
  | nil => rfl
  | cons kv rest ih =>
    obtain ⟨k, v⟩ := kv
    simp only [List.cons_append, lookupField]
    by_cases hk : k = f <;> simp [hk, ih]

theorem truthy_pyGet_append_empty (params : FieldSet) (k g : String) :
    truthy (pyGet (params ++ [(k, Val.str "")]) g) = truthy (pyGet params g) := by
  unfold pyGet
  rw [lookupField_append]
  cases h : lookupField params g with
  | some v => rfl
  | none =>
    simp only [lookupField]
    by_cases hk : k = g <;> simp [hk, truthy] <;> rfl

theorem valStr_pyGetD_append_empty (params : FieldSet) (k g : String) :
    valStr (pyGetD (params ++ [(k, Val.str "")]) g (Val.str "")) =
      valStr (pyGetD params g (Val.str "")) := by
  unfold pyGetD
  rw [lookupField_append]
  cases h : lookupField params g with
  | some v => rfl
  | none =>
    simp only [lookupField]
    by_cases hk : k = g <;> simp [hk, valStr]

theorem find?_ext {α : Type} (p q : α → Bool) (l : List α)
    (h : ∀ x ∈ l, p x = q x) : l.find? p = l.find? q := by
  induction l with
  | nil => rfl
  | cons a t ih =>
    simp only [List.find?]
    rw [h a (by simp)]
    cases q a with
    | true => rfl
    | false => exact ih (fun x hx => h x (by simp [hx]))

theorem checkRequired_eq (params : FieldSet) (req : List String) :
    checkRequired params req =
      match req.find? (fun f => !truthy (pyGet params f)) with
      | Option.some f => Except.error (AdyenError.MissingFieldException f)
      | Option.none => Except.ok () := by
  induction req with
  | nil => rfl
  | cons f rest ih =>
    simp only [checkRequired, List.find?]
    cases h : truthy (pyGet params f) <;> simp [h, ih]

theorem checkUnexpected_eq (expected : List String) (ks : List String) :
    checkUnexpected expected ks =
      match ks.find? (fun k => !(decide (k ∈ expected))) with
      | Option.some k => Except.error (AdyenError.UnexpectedFieldException k)
      | Option.none => Except.ok () := by
  induction ks with
  | nil => rfl
  | cons k rest ih =>
    simp only [checkUnexpected, List.find?]
    by_cases h : k ∈ expected <;> simp [h, ih]

theorem check_fields_eq (required optional : List String) (params : FieldSet) :
    check_fields required optional params =
      match required.find? (fun f => !truthy (pyGet params f)) with
      | Option.some f => Except.error (AdyenError.MissingFieldException f)
      | Option.none =>
        match (params.map Prod.fst).find?
            (fun k => !(decide (k ∈ required ++ optional))) with
        | Option.some k => Except.error (AdyenError.UnexpectedFieldException k)
        | Option.none => Except.ok () := by
  unfold check_fields
  rw [checkRequired_eq]
  cases h : required.find? (fun f => !truthy (pyGet params f)) <;>
    simp [checkUnexpected_eq]

theorem check_fields_ok_required (required optional : List String)
    (params : FieldSet) (h : check_fields required optional params = Except.ok ())
    (f : String) (hf : f ∈ required) : truthy (pyGet params f) = true := by
  rw [check_fields_eq] at h
  cases hfind : required.find? (fun g => !truthy (pyGet params g)) with
  | some g => rw [hfind] at h; simp at h
  | none =>
    have := List.find?_eq_none.mp hfind f hf
    simpa using this

theorem lookup_some_of_truthy (params : FieldSet) (f : String)
    (h : truthy (pyGet params f) = true) :
    ∃ v, lookupField params f = Option.some v := by
  unfold pyGet at h
  cases hv : lookupField params f with
  | some v => exact ⟨v, rfl⟩
  | none => rw [hv] at h; simp [truthy] at h

theorem valEqStr_eq_true_iff (v : Val) (s : String) :
    valEqStr v s = true ↔ v = Val.str s := by
  cases v <;> simp [valEqStr]

theorem lookupField_filter_none (params : FieldSet) (f : String)
    (hf : strContains f Constants.ADDITIONAL_DATA_MARK = true) :
    lookupField (PaymentNotification.filterAdditional params) f = Option.none := by
  induction params with
  | nil => rfl
  | cons kv rest ih =>
    obtain ⟨k, v⟩ := kv
    unfold PaymentNotification.filterAdditional at *
    rw [List.filter_cons]
    by_cases hk : strContains k Constants.ADDITIONAL_DATA_MARK = true
    · simp only [hk]
      simpa using ih
    · simp only [eq_self_iff_true]
      have hk' : (!strContains k Constants.ADDITIONAL_DATA_MARK) = true := by
        simp [Bool.not_eq_true] at hk ⊢
        exact hk
      rw [if_pos hk']
      simp only [lookupField]
      by_cases hkf : k = f
      · subst hkf
        exact absurd hf hk
      · simp [hkf]
        exact ih

theorem signing_string_eq_spec (keys : List String) (params : FieldSet) :
    signing_string keys params = signing_string_spec keys params := by
  induction keys with
  | nil => rfl
  | cons j js ih =>
    unfold signing_string at ih ⊢
    simp only [List.map_cons]
    rw [join_cons, signing_string_spec, ih]
    congr 1
    unfold pyGetD
    cases hv : lookupField params j <;> simp [valStr]

theorem lookup_isSome_of_mem_keys (params : FieldSet) (f : String)
    (h : f ∈ params.map Prod.fst) : (lookupField params f).isSome = true := by
  induction params with
  | nil => simp at h
  | cons kv rest ih =>
    obtain ⟨k, v⟩ := kv
    simp only [lookupField]
    by_cases hk : k = f
    · simp [hk]
    · simp only [List.map_cons, List.mem_cons] at h
      rcases h with h | h
      · exact absurd h.symm hk
      · simp [hk]
        exact ih h

/-- C3: for every field set and contract, validation performs the
all-required-present check before the unexpected-field check: it iterates the
required list in its declared order and raises MissingFieldError on the first
missing field found; only if all required fields are present does it iterate
the key order of the field set itself and raise UnexpectedFieldError on the
first field not in required or optional. -/
theorem check_fields_order (required optional : List String) (params : FieldSet) :
    check_fields required optional params =
      match required.find? (fun f => !truthy (pyGet params f)) with
      | Option.some f => Except.error (AdyenError.MissingFieldException f)
      | Option.none =>
        match (params.map Prod.fst).find?
            (fun k => !(decide (k ∈ required ++ optional))) with
        | Option.some k => Except.error (AdyenError.UnexpectedFieldException k)
        | Option.none => Except.ok () :=
  check_fields_eq required optional params

/-- C8: for every contract and every field set in which some required field is
absent or bound to a falsy value, validation fails with MissingFieldError for
such a field — namely the first absent-or-falsy field in the declared required
order, so for that field whenever it is the first such; and a required field
bound to the empty string is treated exactly like an absent one (appending it
with an empty-string value leaves the validation result unchanged). -/
theorem required_falsy_missing_field (required optional : List String)
    (params : FieldSet) (f : String) (hf : f ∈ required)
    (hfalsy : truthy (pyGet params f) = false) :
    (∃ g, g ∈ required ∧ truthy (pyGet params g) = false ∧
      required.find? (fun x => !truthy (pyGet params x)) = Option.some g ∧
      check_fields required optional params =
        Except.error (AdyenError.MissingFieldException g))
    ∧ check_fields required optional (params ++ [(f, Val.str "")]) =
        check_fields required optional params := by
  have hsome : (required.find? (fun g => !truthy (pyGet params g))).isSome := by
    rw [List.find?_isSome]
    exact ⟨f, hf, by simp [hfalsy]⟩
  obtain ⟨g, hg⟩ := Option.isSome_iff_exists.mp hsome
  have hgmem := List.mem_of_find?_eq_some hg
  have hgp : truthy (pyGet params g) = false := by
    have := List.find?_some hg
    simpa using this
  constructor
  · exact ⟨g, hgmem, hgp, hg, by rw [check_fields_eq, hg]⟩
  · rw [check_fields_eq, check_fields_eq]
    have hext : (params ++ [(f, Val.str "")]).map Prod.fst =
        params.map Prod.fst ++ [f] := by simp
    rw [find?_ext (fun g => !truthy (pyGet (params ++ [(f, Val.str "")]) g))
          (fun g => !truthy (pyGet params g)) required
          (fun x _ => by simp only [truthy_pyGet_append_empty]), hg]

/-- C7: for every settings mapping lacking at least one of the four mandatory
keys, gateway construction fails with MissingParameterError whose message
names all of the required keys. -/
theorem gateway_init_missing_parameter (settings : FieldSet)
    (h : ∃ k, k ∈ MANDATORY_SETTINGS ∧ lookupField settings k = Option.none) :
    gateway_init settings =
      Except.error (AdyenError.MissingParameterException missingParameterMessage)
    ∧ ∀ k ∈ MANDATORY_SETTINGS, strContains missingParameterMessage k = true := by
  constructor
  · unfold gateway_init
    have hany : MANDATORY_SETTINGS.any
        (fun key => (lookupField settings key).isNone) = true := by
      rw [List.any_eq_true]
      obtain ⟨k, hk, hnone⟩ := h
      exact ⟨k, hk, by simp [hnone]⟩
    simp [hany]
  · decide

/-- C9: gateway construction succeeds for every settings mapping in which all
four mandatory keys are present, even when their values are falsy: the check
tests key presence only, and the four settings are read with get. -/
theorem gateway_init_presence_only (settings : FieldSet)
    (h : ∀ k ∈ MANDATORY_SETTINGS, (lookupField settings k).isSome = true) :
    gateway_init settings = Except.ok
      { identifier := pyGet settings Constants.IDENTIFIER
        secret_key := pyGet settings Constants.SECRET_KEY
        action_url := pyGet settings Constants.ACTION_URL
        signer := pyGet settings Constants.SIGNER } := by
  unfold gateway_init
  have hany : MANDATORY_SETTINGS.any
      (fun key => (lookupField settings key).isNone) = false := by
    rw [List.any_eq_false]
    intro k hk
    have hks := h k hk
    cases hcase : lookupField settings k with
    | none => rw [hcase] at hks; simp at hks
    | some v => simp [hcase]
  simp [hany]

/-- C2: the signing string is the concatenation of the field values in the
given fixed key order with the empty string substituted for every absent key;
hence signing a field set lacking one of the signing-order fields yields the
same signature as signing it with that field explicitly set to the empty
string, for any secret and any HMAC pipeline. -/
theorem signing_missing_field_empty (hm : String → String → String)
    (secret : String) (keys : List String) (params : FieldSet) (k : String)
    (hk : lookupField params k = Option.none) :
    signing_string keys params = signing_string_spec keys params
    ∧ compute_hash hm secret keys (params ++ [(k, Val.str "")]) =
        compute_hash hm secret keys params := by
  constructor
  · exact signing_string_eq_spec keys params
  · unfold compute_hash
    congr 1
    unfold signing_string
    congr 1
    apply List.map_congr_left
    intro j _
    exact valStr_pyGetD_append_empty params k j

/-- C1: for every inbound redirect field set that passes structural field
validation, if the verify operation of the signer returns false the processing
fails with InvalidTransactionError and no outcome is produced; and when
structural validation fails, its error is the result regardless of the signer,
so verification runs only after structural validation succeeds. -/
theorem redirection_verify_gate (verify : FieldSet → Bool) (params : FieldSet) :
    (check_fields PaymentRedirection.REQUIRED_FIELDS
        PaymentRedirection.OPTIONAL_FIELDS params = Except.ok () →
      verify params = false →
      PaymentRedirection.handle verify params =
        Except.error AdyenError.InvalidTransactionException)
    ∧ ∀ e, check_fields PaymentRedirection.REQUIRED_FIELDS
        PaymentRedirection.OPTIONAL_FIELDS params = Except.error e →
        PaymentRedirection.validate verify params = Except.error e
        ∧ PaymentRedirection.handle verify params = Except.error e := by
  constructor
  · intro hok hv
    unfold PaymentRedirection.handle PaymentRedirection.validate
    simp [hok, hv]
  · intro e he
    unfold PaymentRedirection.handle PaymentRedirection.validate
    simp [he]

/-- C10: for every inbound redirect field set that lacks the merchant
signature field, validation raises MissingFieldError from the structural
required-field check, and the result does not depend on the verify operation
of the signer, which is therefore never the source of the failure. -/
theorem redirection_missing_signature (verify : FieldSet → Bool)
    (params : FieldSet)
    (h : lookupField params Constants.MERCHANT_SIG = Option.none) :
    (∃ g, g ∈ PaymentRedirection.REQUIRED_FIELDS ∧
      PaymentRedirection.validate verify params =
        Except.error (AdyenError.MissingFieldException g))
    ∧ ∀ v₁ v₂ : FieldSet → Bool,
        PaymentRedirection.validate v₁ params =
          PaymentRedirection.validate v₂ params := by
  have hfalsy : truthy (pyGet params Constants.MERCHANT_SIG) = false := by
    unfold pyGet
    rw [h]
    rfl
  have hmem : Constants.MERCHANT_SIG ∈ PaymentRedirection.REQUIRED_FIELDS := by
    decide
  have hsome : (PaymentRedirection.REQUIRED_FIELDS.find?
      (fun g => !truthy (pyGet params g))).isSome := by
    rw [List.find?_isSome]
    exact ⟨Constants.MERCHANT_SIG, hmem, by simp [hfalsy]⟩
  obtain ⟨g, hg⟩ := Option.isSome_iff_exists.mp hsome
  have herr : check_fields PaymentRedirection.REQUIRED_FIELDS
      PaymentRedirection.OPTIONAL_FIELDS params =
      Except.error (AdyenError.MissingFieldException g) := by
    rw [check_fields_eq, hg]
  constructor
  · refine ⟨g, List.mem_of_find?_eq_some hg, ?_⟩
    unfold PaymentRedirection.validate
    simp [herr]
  · intro v₁ v₂
    unfold PaymentRedirection.validate
    simp [herr]

/-- C6: for every validated and signature-verified inbound redirect,
processing returns an outcome whose accepted flag is true exactly when the
auth-result field holds the literal AUTHORISED token, whose status is the raw
auth-result value itself, and whose field set is the full input field set. -/
theorem redirection_outcome (verify : FieldSet → Bool) (params : FieldSet)
    (h : PaymentRedirection.validate verify params = Except.ok ()) :
    ∃ v acc, lookupField params Constants.AUTH_RESULT = Option.some v
      ∧ PaymentRedirection.handle verify params = Except.ok (acc, v, params)
      ∧ (acc = true ↔ v = Val.str Constants.PAYMENT_RESULT_AUTHORISED) := by
  have hcheck : check_fields PaymentRedirection.REQUIRED_FIELDS
      PaymentRedirection.OPTIONAL_FIELDS params = Except.ok () := by
    unfold PaymentRedirection.validate at h
    cases hc : check_fields PaymentRedirection.REQUIRED_FIELDS
        PaymentRedirection.OPTIONAL_FIELDS params with
    | error e => rw [hc] at h; simp at h
    | ok u => cases u; rfl
  have htruthy := check_fields_ok_required _ _ _ hcheck Constants.AUTH_RESULT
    (by decide)
  obtain ⟨v, hv⟩ := lookup_some_of_truthy _ _ htruthy
  refine ⟨v, valEqStr v Constants.PAYMENT_RESULT_AUTHORISED, hv, ?_,
    valEqStr_eq_true_iff v Constants.PAYMENT_RESULT_AUTHORISED⟩
  unfold PaymentRedirection.handle PaymentRedirection.process
  simp [h, hv]

/-- C5: for every inbound notification whose filtered field set passes
validation, processing returns an outcome (never an error) whose accepted flag
is true exactly when the success field holds the literal truth token (any
other value, including an absent one, yields accepted false), whose status is
AUTHORISED when accepted and REFUSED otherwise, and whose field set is the
full filtered field set. -/
theorem notification_outcome (params : FieldSet)
    (h : PaymentNotification.check_fields params = Except.ok ()) :
    ∃ acc st flds,
      PaymentNotification.handle params = Except.ok (acc, st, flds)
      ∧ (acc = true ↔ pyGet flds Constants.SUCCESS = Val.str Constants.TRUE)
      ∧ st = Val.str (if acc then Constants.PAYMENT_RESULT_AUTHORISED
                      else Constants.PAYMENT_RESULT_REFUSED)
      ∧ flds = PaymentNotification.filterAdditional params := by
  unfold PaymentNotification.check_fields at h
  refine ⟨valEqStr (pyGet (PaymentNotification.filterAdditional params)
      Constants.SUCCESS) Constants.TRUE, _,
    PaymentNotification.filterAdditional params, ?_,
    valEqStr_eq_true_iff _ _, rfl, rfl⟩
  unfold PaymentNotification.handle PaymentNotification.process
  simp [h]

/-- C4: for every inbound notification field set, every field whose name
contains the reserved additional-data marker is removed by the pre-filter
(so it is absent from the validated field set), never triggers
UnexpectedFieldError, and is absent from the field set returned in the
outcome. -/
theorem notification_additional_data_removed (params : FieldSet) (f : String)
    (hf : strContains f Constants.ADDITIONAL_DATA_MARK = true) :
    lookupField (PaymentNotification.filterAdditional params) f = Option.none
    ∧ PaymentNotification.check_fields params ≠
        Except.error (AdyenError.UnexpectedFieldException f)
    ∧ ∀ acc st flds,
        PaymentNotification.handle params = Except.ok (acc, st, flds) →
        lookupField flds f = Option.none := by
  have h1 := lookupField_filter_none params f hf
  refine ⟨h1, ?_, ?_⟩
  · intro hcontra
    unfold PaymentNotification.check_fields at hcontra
    rw [check_fields_eq] at hcontra
    cases h2 : PaymentNotification.REQUIRED_FIELDS.find?
        (fun g => !truthy (pyGet (PaymentNotification.filterAdditional params) g)) with
    | some g => rw [h2] at hcontra; simp at hcontra
    | none =>
      rw [h2] at hcontra
      cases h3 : ((PaymentNotification.filterAdditional params).map Prod.fst).find?
          (fun k => !(decide (k ∈ PaymentNotification.REQUIRED_FIELDS ++
            PaymentNotification.OPTIONAL_FIELDS))) with
      | none => rw [h3] at hcontra; simp at hcontra
      | some k =>
        rw [h3] at hcontra
        simp only [Except.error.injEq, AdyenError.UnexpectedFieldException.injEq]
          at hcontra
        subst hcontra
        have hmem := List.mem_of_find?_eq_some h3
        have := lookup_isSome_of_mem_keys _ _ hmem
        rw [h1] at this
        simp at this
  · intro acc st flds hok
    unfold PaymentNotification.handle at hok
    dsimp only at hok
    cases hc : check_fields PaymentNotification.REQUIRED_FIELDS
        PaymentNotification.OPTIONAL_FIELDS
        (PaymentNotification.filterAdditional params) with
    | error e => rw [hc] at hok; simp at hok
    | ok u =>
      rw [hc] at hok
      simp only [Except.ok.injEq] at hok
      have hflds : flds = PaymentNotification.filterAdditional params := by
        have := congrArg (fun t => t.2.2) hok
        simpa [PaymentNotification.process] using this.symm
      rw [hflds]
      exact h1

/-- Witness for C1: a structurally valid redirect whose signer rejects it is
processed to InvalidTransactionError. -/
theorem redirection_verify_gate_witness :
    PaymentRedirection.handle (fun _ => false) redirSample =
      Except.error AdyenError.InvalidTransactionException :=
  (redirection_verify_gate (fun _ => false) redirSample).1 rfl rfl

/-- Witness for C2: on the payment-setup order, omitting allowedMethods gives
the same hash as supplying it empty. -/
theorem signing_missing_field_empty_witness :
    compute_hash (fun key msg => key ++ "#" ++ msg) "sk"
        PAYMENT_SETUP_SIGNING_ORDER
        ([(Constants.PAYMENT_AMOUNT, Val.str "100")] ++
          [("allowedMethods", Val.str "")]) =
      compute_hash (fun key msg => key ++ "#" ++ msg) "sk"
        PAYMENT_SETUP_SIGNING_ORDER
        [(Constants.PAYMENT_AMOUNT, Val.str "100")] :=
  (signing_missing_field_empty (fun key msg => key ++ "#" ++ msg) "sk"
    PAYMENT_SETUP_SIGNING_ORDER [(Constants.PAYMENT_AMOUNT, Val.str "100")]
    "allowedMethods" rfl).2

/-- Witness for C4: the additional-data field of the sample notification is
dropped by the pre-filter. -/
theorem notification_additional_data_removed_witness :
    lookupField (PaymentNotification.filterAdditional notifSample)
      "additionalData.cardSummary" = Option.none :=
  (notification_additional_data_removed notifSample
    "additionalData.cardSummary" rfl).1

/-- Witness for C5: the sample notification with success equal to the truth
token is accepted with the AUTHORISED status. -/
theorem notification_outcome_witness :
    ∃ acc st flds,
      PaymentNotification.handle notifSample = Except.ok (acc, st, flds)
      ∧ (acc = true ↔ pyGet flds Constants.SUCCESS = Val.str Constants.TRUE)
      ∧ st = Val.str (if acc then Constants.PAYMENT_RESULT_AUTHORISED
                      else Constants.PAYMENT_RESULT_REFUSED)
      ∧ flds = PaymentNotification.filterAdditional notifSample :=
  notification_outcome notifSample rfl

/-- Witness for C6: the sample redirect with auth result AUTHORISED and an
accepting signer yields an accepted outcome with the raw auth-result status. -/
theorem redirection_outcome_witness :
    ∃ v acc, lookupField redirSample Constants.AUTH_RESULT = Option.some v
      ∧ PaymentRedirection.handle (fun _ => true) redirSample =
          Except.ok (acc, v, redirSample)
      ∧ (acc = true ↔ v = Val.str Constants.PAYMENT_RESULT_AUTHORISED) :=
  redirection_outcome (fun _ => true) redirSample rfl

/-- Witness for C7: a settings mapping holding only the identifier fails with
the MissingParameterError naming all four keys. -/
theorem gateway_init_missing_parameter_witness :
    gateway_init [(Constants.IDENTIFIER, Val.str "id")] =
      Except.error (AdyenError.MissingParameterException missingParameterMessage) :=
  (gateway_init_missing_parameter [(Constants.IDENTIFIER, Val.str "id")]
    ⟨Constants.SECRET_KEY, by decide, rfl⟩).1

/-- Witness for C8: appending an empty-string binding for a missing required
field leaves the validation result unchanged. -/
theorem required_falsy_missing_field_witness :
    check_fields ["a", "b"] [] ([("a", Val.str "1")] ++ [("b", Val.str "")]) =
      check_fields ["a", "b"] [] [("a", Val.str "1")] :=
  (required_falsy_missing_field ["a", "b"] [] [("a", Val.str "1")] "b"
    (by decide) rfl).2

/-- Witness for C9: a settings mapping with all four keys present but falsy
values constructs the gateway. -/
theorem gateway_init_presence_only_witness :
    gateway_init settingsSample = Except.ok
      { identifier := pyGet settingsSample Constants.IDENTIFIER
        secret_key := pyGet settingsSample Constants.SECRET_KEY
        action_url := pyGet settingsSample Constants.ACTION_URL
        signer := pyGet settingsSample Constants.SIGNER } :=
  gateway_init_presence_only settingsSample (by decide)

/-- Witness for C10: a redirect lacking the merchant signature validates to
the same failure under any two signers. -/
theorem redirection_missing_signature_witness :
    PaymentRedirection.validate (fun _ => true)
        [(Constants.AUTH_RESULT, Val.str "AUTHORISED")] =
      PaymentRedirection.validate (fun _ => false)
        [(Constants.AUTH_RESULT, Val.str "AUTHORISED")] :=
  (redirection_missing_signature (fun _ => true)
    [(Constants.AUTH_RESULT, Val.str "AUTHORISED")] rfl).2
    (fun _ => true) (fun _ => false)

end AdyenGateway
